/-
  Verification of the eoreader band-stacking and product utilities.

  Shallow embedding of:
  - src/eoreader/utils.py            (read, write, stack_dict)
  - src/eoreader/products/optical/l3_product.py (L3Product)
  - src/CI/SCRIPTS_SNAP/test_all_sat_end_to_end_on_disk.py (set_dem, _test_core)

  Conventions of the embedding:
  - pixel values are rationals; a missing pixel (NaN) is modelled as none;
  - an xarray Dataset is a list of (band, values) pairs in variable insertion
    order, exactly the insertion order a Python dict preserves;
  - library calls that live outside the repository (numpy quantile, the raster
    engine) enter the model as explicit inputs, with their results as oracles.
-/
import Mathlib

set_option linter.unusedVariables false

namespace EOReader

/-! ## Band enumeration (eoreader.bands)

The module eoreader.bands is not part of the excerpt; its identifiers and the
predicates is_sat_band / is_index are modelled from the spec. -/

/-- Modelled from the spec: the closed set of logical band identifiers used by
the claims — optical reflective bands, SAR polarization bands (raw and
despeckled), an index product, and terrain/cloud derived layers
(eoreader.bands is not in the excerpt). -/
inductive BandId where
  | GREEN | RED | VRE_1 | VRE_2 | VRE_3 | NIR | NNIR | SWIR_2
  | VV | VV_DSPK | HH | HH_DSPK
  | NDVI
  | SLOPE | HILLSHADE | CLOUDS
  deriving DecidableEq, Repr

/-- Modelled from the spec: is_sat_band holds exactly for physical satellite
bands (optical reflective and SAR polarization bands), not for indices nor for
derived layers (eoreader.bands.is_sat_band is not in the excerpt). -/
def is_sat_band (b : BandId) : Bool :=
  match b with
  | .GREEN | .RED | .VRE_1 | .VRE_2 | .VRE_3 | .NIR | .NNIR | .SWIR_2 => true
  | .VV | .VV_DSPK | .HH | .HH_DSPK => true
  | _ => false

/-- Modelled from the spec: is_index holds exactly for index products
(eoreader.bands.is_index is not in the excerpt). -/
def is_index (b : BandId) : Bool :=
  match b with
  | .NDVI => true
  | _ => false

/-! ## Arrays and datasets -/

/-- A flattened band of pixel values; a NaN / missing pixel is none. -/
abbrev BandArr : Type := List (Option ℚ)

/-- An xarray Dataset: data variables in insertion order. -/
abbrev Dataset : Type := List (BandId × BandArr)

/-- Dataset.clip(min=0, max=None): clip every present value below to 0. -/
def clipDataset (xds : Dataset) : Dataset :=
  xds.map (fun p => (p.1, p.2.map (fun v => v.map (fun q => max 0 q))))

/-- Dataset.fillna(nodata): replace every missing pixel by the nodata value. -/
def fillnaDataset (nodata : ℚ) (xds : Dataset) : Dataset :=
  xds.map (fun p => (p.1, p.2.map (fun v => some (v.getD nodata))))

/-- np.nanmax over one band: the largest present value, none if all missing. -/
def nanmax (xs : BandArr) : Option ℚ :=
  xs.foldl
    (fun acc v =>
      match acc, v with
      | none, w => w
      | some m, none => some m
      | some m, some q => some (max m q))
    none

/-- Floor of a rational, computed from its reduced numerator and denominator
(the denominator is positive, so Euclidean division is floor division). -/
def ratFloor (q : ℚ) : ℤ := q.num / (q.den : ℤ)

/-- np.round rounds half to even (the numpy rounding mode). -/
def roundHalfEven (q : ℚ) : ℤ :=
  let f : ℤ := ratFloor q
  let frac : ℚ := q - f
  if frac < 1 / 2 then f
  else if 1 / 2 < frac then f + 1
  else if f % 2 = 0 then f else f + 1

/-- sertit.rasters.UINT16_NODATA. -/
def UINT16_NODATA : ℚ := 65535

/-- The dtype returned by stack_dict. -/
inductive DType where
  | float32
  | uint16
  deriving DecidableEq, Repr

/-- The stacked DataArray: dimension order, the per-band planes in band-axis
order, and the rio encoded nodata attribute. -/
structure StackedArray where
  dims : List String
  entries : List (BandId × BandArr)
  encodedNodata : Option ℚ
  deriving DecidableEq, Repr

/-- Dataset.to_stacked_array: one plane per data variable, in the variable
order of the dataset; the new bands dimension comes last before transposition and
no encoded nodata is set yet. -/
def to_stacked_array (xds : Dataset) : StackedArray :=
  { dims := ["y", "x", "bands"], entries := xds, encodedNodata := none }

/-- DataArray.transpose: reorder the dimensions. -/
def transposeTo (a : StackedArray) (d : List String) : StackedArray :=
  { a with dims := d }

/-- DataArray.rio.write_nodata(nodata, encoded=True). -/
def writeNodata (a : StackedArray) (nodata : ℚ) : StackedArray :=
  { a with encodedNodata := some nodata }

/-- One iteration of the scaling loop of stack_dict (utils.py lines 404-415):
a satellite or index band whose nanmax does not exceed UINT16_NODATA/scale is
multiplied by the scale; other bands, and bands already beyond that bound, are
kept as is. In the source the result is bound to the loop variable band_xda
only and never written back into band_xds, so stack_dict discards it. -/
def scaledBand (scale : ℚ) (band : BandId) (xda : BandArr) : BandArr :=
  if is_sat_band band || is_index band then
    match nanmax xda with
    | some m =>
        if m > UINT16_NODATA / scale then xda
        else xda.map (fun v => v.map (fun q => q * scale))
    | none => xda.map (fun v => v.map (fun q => q * scale))
  else xda

/-- eoreader.utils.stack_dict.

stack_min is the value of float(band_xds.to_array().quantile(0.001)) computed
by the external array library, passed in as an oracle; it is only consulted
when save_as_int is set, as in the source.

The bands parameter is carried exactly as in the source, where it is accepted
(documented as keeping the stack order) but never read: the stacking order is
the variable order of the dataset. The scaling loop of the source computes
scaledBand for each variable and discards the result, so no scaling reaches
the dataset here either. -/
def stack_dict (bands : List BandId) (band_xds : Dataset) (save_as_int : Bool)
    (nodata : ℚ) (stack_min : ℚ) : StackedArray × DType :=
  let scale : ℚ := 10000
  let round_nb : ℚ := 1000
  let round_min : ℚ := -(1 / 10)
  let (xds2, dtype) :=
    if save_as_int then
      if (roundHalfEven (stack_min * round_nb) : ℚ) / round_nb < round_min then
        (band_xds, DType.float32)
      else
        let clipped := if stack_min < 0 then clipDataset band_xds else band_xds
        (fillnaDataset nodata clipped, DType.uint16)
    else (band_xds, DType.float32)
  let stack := transposeTo (to_stacked_array xds2) ["bands", "y", "x"]
  let stack2 :=
    if dtype = DType.float32 then
      if stack.encodedNodata ≠ some nodata then writeNodata stack nodata
      else stack
    else stack
  (stack2, dtype)

/-! ## eoreader.utils.read

Only the code of read itself is embedded: the inner call to the raster engine
sertit.rasters.read is an external collaborator, so its outcome (a raw array,
or a rasterio IO error) is an input of the model. -/

/-- What the except-branch of read observes about its path argument:
isinstance(path, str), str(path), and path.exists(). -/
structure PathArg where
  isStr : Bool
  strRepr : String
  fileExists : Bool
  deriving DecidableEq, Repr

/-- Whether sub occurs as a contiguous run inside s. -/
def hasSubList (sub : List Char) : List Char → Bool
  | [] => sub.isEmpty
  | hd :: tl => sub.isPrefixOf (hd :: tl) || hasSubList sub tl

/-- Python str.endswith: suffix test on the character lists. -/
def pyEndsWith (s suffix : String) : Bool :=
  List.isSuffixOf suffix.toList s.toList

/-- Python sub in s: contiguous substring membership. -/
def pyContains (s sub : String) : Bool := hasSubList sub.toList s.toList

/-- Splitting a character list at every occurrence of sep, keeping empty
chunks, as Python str.split(sep) with an explicit separator does. -/
def pySplitList (sep : Char) : List Char → List (List Char)
  | [] => [[]]
  | c :: tl =>
    let rest := pySplitList sep tl
    if c = sep then [] :: rest
    else
      match rest with
      | [] => [[c]]
      | h :: t => (c :: h) :: t

/-- Python s.split(sep) for a one-character separator. -/
def pySplit (s : String) (sep : Char) : List String :=
  (pySplitList sep s.toList).map String.mk

/-- The failure that escapes read; a re-raised engine error keeps the original
exception, identified by an abstract tag. -/
inductive ReadFailure where
  | invalidProduct (msg : String)
  | rasterioIOError (ex : Nat)
  deriving DecidableEq, Repr

/-- The except-branch of read (utils.py lines 200-206): a rasterio IO error on
a non-str path that ends in jp2, or ends in tif and exists, becomes an
InvalidProductError naming the path; any other engine error is re-raised
unchanged. -/
def readErrorBranch (path : PathArg) (ex : Nat) : ReadFailure :=
  if !path.isStr
      && (pyEndsWith path.strRepr "jp2"
          || (pyEndsWith path.strRepr "tif" && path.fileExists)) then
    ReadFailure.invalidProduct ("Corrupted file: " ++ path.strRepr)
  else
    ReadFailure.rasterioIOError ex

/-- A raw array as returned by the raster engine: band-axis coordinates (which
may be arbitrary upstream sub-band indices) and one plane of data per band. -/
structure RasterArr where
  bandCoords : List ℤ
  data : List BandArr
  deriving DecidableEq, Repr

/-- np.arange(start, stop) over integers. -/
def npArange (start stop : ℤ) : List ℤ :=
  (List.range (stop - start).toNat).map (fun i : ℕ => start + (i : ℤ))

/-- The post-read normalization of read (utils.py lines 190-197): overwrite the
band coordinate with np.arange(1, nof_bands + 1) where nof_bands is the length
of the band coordinate; the data is untouched. -/
def readAssignBandCoords (arr : RasterArr) : RasterArr :=
  let nof_bands := arr.bandCoords.length
  { arr with bandCoords := npArange 1 (nof_bands + 1) }

/-! ## eoreader.products.optical.l3_product -/

/-- Modelled from the spec: the enumerated per-sensor product type variants;
only the Landsat-1 MSS variant is reached by L3Product. Its value attribute is
a fixed string per variant (landsat_product.py is not in the excerpt). -/
inductive LandsatProductType where
  | L1_MSS
  deriving DecidableEq, Repr

/-- Modelled from the spec: the .value attribute of the product type enum, a
fixed string per variant (landsat_product.py is not in the excerpt). -/
def LandsatProductType.value : LandsatProductType → String
  | .L1_MSS => "L1_MSS"

/-- The error raised by get_product_type. -/
inductive ProductError where
  | invalidProduct (msg : String)
  deriving DecidableEq, Repr

/-- The attributes of an L3Product read or written by the embedded methods;
datetimeRepr is the interpolated form of self.datetime(). -/
structure L3Product where
  name : String
  datetimeRepr : String
  tile_name : String
  product_type : Option LandsatProductType
  band_names : List (BandId × String)
  deriving DecidableEq, Repr

/-- The band mapping table registered by L3Product.get_product_type. -/
def l3MSSBandNames : List (BandId × String) :=
  [(BandId.GREEN, "4"), (BandId.RED, "5"), (BandId.VRE_1, "6"),
   (BandId.VRE_2, "6"), (BandId.VRE_3, "6"), (BandId.NIR, "7"),
   (BandId.NNIR, "7")]

/-- L3Product.get_product_type: when "L1" occurs in the name, set the product
type to L1_MSS and register the MSS band mapping table; otherwise raise
InvalidProductError naming the product name. -/
def get_product_type (p : L3Product) : Except ProductError L3Product :=
  if pyContains p.name "L1" then
    Except.ok
      { p with
        product_type := some LandsatProductType.L1_MSS
        band_names := l3MSSBandNames }
  else
    Except.error
      (ProductError.invalidProduct ("Invalid Landsat-3 name: " ++ p.name))

/-- L3Product.condensed_name: the f-string
{datetime}_L3_{tile_name}_{product_type.value}; none when the product type was
never set (the attribute access would fail in the source). -/
def condensed_name (p : L3Product) : Option String :=
  p.product_type.map
    (fun t => p.datetimeRepr ++ "_L3_" ++ p.tile_name ++ "_" ++ t.value)

/-! ## The CI driver: set_dem and the per-sensor resolution policy -/

/-- os.environ as an association list; the most recent binding of a key wins. -/
abbrev Env : Type := List (String × String)

/-- os.environ.get(k): the most recent binding, none when the key is absent. -/
def envGet (env : Env) (k : String) : Option String :=
  (env.find? (fun p => p.1 == k)).map Prod.snd

/-- os.environ[k] = v. -/
def envSet (env : Env) (k v : String) : Env := (k, v) :: env

/-- Modelled from the spec: the name of the process-wide DEM-path environment
variable (eoreader.env_vars is not in the excerpt; only its distinctness from
the other keys matters). -/
def DEM_PATH : String := "EOREADER_DEM_PATH"

/-- Modelled from the spec: the name of the remote-only mode flag variable
(eoreader.env_vars is not in the excerpt). -/
def TEST_USING_S3_DB : String := "TESTING_USING_S3_DB"

/-- Modelled from the spec: the name of the remote (S3) reference-data root
variable (eoreader.env_vars is not in the excerpt). -/
def S3_DB_URL_ROOT : String := "S3_DB_URL_ROOT"

/-- Modelled from the spec: the name of the SAR default resolution override
variable (eoreader.env_vars is not in the excerpt). -/
def SAR_DEF_RES : String := "EOREADER_SAR_DEFAULT_RES"

/-- The fixed sub-path of the default MERIT elevation dataset. -/
def MERIT_DEM_SUB_DIR_PATH : List String :=
  ["GLOBAL", "MERIT_Hydrologically_Adjusted_Elevations", "MERIT_DEM.vrt"]

/-- The failures set_dem can raise. -/
inductive SetDemError where
  | fileNotFound (msg : String)
  | exceptionRaised (msg : String)
  deriving DecidableEq, Repr

/-- Python truthiness of an optional string (None and the empty string are
falsy). -/
def truthyStr : Option String → Bool
  | none => false
  | some s => !(s == "")

/-- set_dem from the CI driver. dem_path is the optional explicit path;
isFile is the filesystem oracle behind AnyPath(...).is_file(); dbDir is the
outcome of get_db_dir() (ok with the database directory, or the
NotADirectoryError it may raise — that helper lives outside the excerpt).

With an explicit truthy path: not a file raises FileNotFoundError naming the
path, else the path is registered under DEM_PATH. Without one: when the
remote-only flag is not set, the local default is registered when the database
directory resolves (its failure is only logged); when the flag is set, a
missing S3_DB_URL_ROOT key raises immediately, else the remote reference
root/GLOBAL/... is registered. -/
def set_dem (dem_path : Option String) (isFile : String → Bool)
    (dbDir : Except Unit String) (env : Env) : Except SetDemError Env :=
  if truthyStr dem_path then
    let p := dem_path.getD ""
    if !(isFile p) then
      Except.error (SetDemError.fileNotFound ("Not existing DEM: " ++ p))
    else
      Except.ok (envSet env DEM_PATH p)
  else
    if !(["Y", "YES", "TRUE", "T", "1"].contains
          ((envGet env TEST_USING_S3_DB).getD "")) then
      match dbDir with
      | Except.ok db =>
          Except.ok
            (envSet env DEM_PATH
              (db ++ "/" ++ String.intercalate "/" MERIT_DEM_SUB_DIR_PATH))
      | Except.error _ => Except.ok env
    else
      match envGet env S3_DB_URL_ROOT with
      | none =>
          Except.error
            (SetDemError.exceptionRaised
              ("You must specify the S3 db root using env variable "
                ++ S3_DB_URL_ROOT ++ " if you activate S3_DB"))
      | some root =>
          Except.ok
            (envSet env DEM_PATH
              (String.intercalate "/" (root :: MERIT_DEM_SUB_DIR_PATH)))

/-- The sensor kind of a product. -/
inductive SensorType where
  | OPTICAL
  | SAR
  deriving DecidableEq, Repr

/-- The resolution-management block of _test_core (CI driver lines 154-159):
a SAR product gets the fixed coarse resolution 1000.0 and the SAR default
resolution variable is set to its string form; an optical product gets its
native resolution times 50 and the environment is untouched. -/
def manageResolution (sensor_type : SensorType) (resolution : ℚ) (env : Env) :
    ℚ × Env :=
  if sensor_type = SensorType.SAR then (1000, envSet env SAR_DEF_RES "1000.0")
  else (resolution * 50, env)

/-! ## eoreader.utils.write -/

/-- An attribute value of the long_name / name attrs: a string, or the list a
split produces. -/
inductive AttrVal where
  | str (s : String)
  | strList (l : List String)
  deriving DecidableEq, Repr

/-- The state of the DataArray handed to write that write reads or mutates:
the long_name attribute, rio.count, and all remaining attributes. -/
structure XDA where
  long_name : Option AttrVal
  rioCount : ℕ
  otherAttrs : List (String × AttrVal)
  deriving DecidableEq, Repr

/-- Python truthiness of an optional attribute value (None, the empty string
and the empty list are falsy). -/
def truthyAttr : Option AttrVal → Bool
  | none => false
  | some (AttrVal.str s) => !(s == "")
  | some (AttrVal.strList l) => !l.isEmpty

/-- eoreader.utils.write (attribute handling only; the inner
sertit.rasters.write call is the external engine). Returns the DataArray state
after write returns, together with the state at the moment the engine wrote
it: when the saved long_name is truthy and the array has more than one band,
a string long_name is replaced by its space-split list for the engine call (a
non-string raises AttributeError, which is swallowed and leaves the attrs
alone) and the saved value is put back afterwards; otherwise the attrs are
never touched. -/
def write (xds : XDA) : XDA × XDA :=
  let previous_long_name := xds.long_name
  let modified :=
    if truthyAttr previous_long_name && 1 < xds.rioCount then
      match previous_long_name with
      | some (AttrVal.str s) =>
          { xds with long_name := some (AttrVal.strList (pySplit s ' ')) }
      | _ => xds
    else xds
  let written := modified
  let final :=
    if truthyAttr previous_long_name && 1 < xds.rioCount then
      { modified with long_name := previous_long_name }
    else modified
  (final, written)

/-! ## Theorems about the claims -/

/-- Evaluation of stack_dict on the save_as_int path when the rounded
percentile estimate is below the threshold: float32 fallback, dataset kept as
is, encoded nodata rewritten. -/
lemma stack_dict_float_fallback (bands : List BandId) (xds : Dataset)
    (nodata sm : ℚ)
    (h : (roundHalfEven (sm * 1000) : ℚ) / 1000 < -(1 / 10)) :
    stack_dict bands xds true nodata sm =
      ({ dims := ["bands", "y", "x"], entries := xds,
         encodedNodata := some nodata }, DType.float32) := by
  simp only [stack_dict, if_pos h]
  simp [to_stacked_array, transposeTo, writeNodata]

/-- Evaluation of stack_dict on the save_as_int path when the rounded
percentile estimate is not below the threshold: clip when the estimate is
negative, fill nodata, dtype uint16. -/
lemma stack_dict_int_path (bands : List BandId) (xds : Dataset)
    (nodata sm : ℚ)
    (h : ¬((roundHalfEven (sm * 1000) : ℚ) / 1000 < -(1 / 10))) :
    stack_dict bands xds true nodata sm =
      ({ dims := ["bands", "y", "x"],
         entries := fillnaDataset nodata
           (if sm < 0 then clipDataset xds else xds),
         encodedNodata := none }, DType.uint16) := by
  simp only [stack_dict, if_neg h]
  simp [to_stacked_array, transposeTo, writeNodata]

/-- C1: the claim (and the docstring of stack_dict) expects every satellite or
index band of a save_as_int stack outside the float32 fallback to be
multiplied by 10000 before encoding. In the source the multiplication is
bound to the loop variable band_xda only and never written back into
band_xds, so the stack keeps the unscaled reflectance: on a RED band holding
[0.5, missing] with a 0.1-percentile estimate of 0.5, the uint16 stack holds
[0.5, 65535] where the claim expects [5000, 65535] — 5000 being exactly the
value the discarded loop iteration (scaledBand) computes. -/
theorem C1_stack_dict_scaling_discarded :
    (stack_dict [BandId.RED] [(BandId.RED, [some (1 / 2), none])]
        true 65535 (1 / 2)).2 = DType.uint16
    ∧ (stack_dict [BandId.RED] [(BandId.RED, [some (1 / 2), none])]
        true 65535 (1 / 2)).1.entries =
      [(BandId.RED, [some (1 / 2), some 65535])]
    ∧ scaledBand 10000 BandId.RED [some (1 / 2), none] = [some 5000, none] := by
  refine ⟨?_, ?_, ?_⟩
  · norm_num [stack_dict, roundHalfEven, ratFloor, fillnaDataset,
      to_stacked_array, transposeTo, writeNodata]
  · norm_num [stack_dict, roundHalfEven, ratFloor, fillnaDataset,
      to_stacked_array, transposeTo, writeNodata]
    simp
  · norm_num [scaledBand, nanmax, UINT16_NODATA, is_sat_band]

/-- C2: the claim expects the band axis of the stack to follow the requested
band list, independent of the dataset order. stack_dict never reads its bands
argument: with the same request [RED, SWIR_2], a dataset keyed (SWIR_2, RED)
is stacked (SWIR_2, RED) while one keyed (RED, SWIR_2) is stacked
(RED, SWIR_2) — the order comes from the dataset, not from the request (the dimensions
do come out (bands, y, x) as claimed). -/
theorem C2_stack_dict_order_follows_dataset :
    (stack_dict [BandId.RED, BandId.SWIR_2]
        [(BandId.SWIR_2, [some 1]), (BandId.RED, [some 2])]
        false 0 0).1.entries.map Prod.fst = [BandId.SWIR_2, BandId.RED]
    ∧ (stack_dict [BandId.RED, BandId.SWIR_2]
        [(BandId.RED, [some 2]), (BandId.SWIR_2, [some 1])]
        false 0 0).1.entries.map Prod.fst = [BandId.RED, BandId.SWIR_2]
    ∧ (stack_dict [BandId.RED, BandId.SWIR_2]
        [(BandId.SWIR_2, [some 1]), (BandId.RED, [some 2])]
        false 0 0).1.dims = ["bands", "y", "x"] := by
  refine ⟨?_, ?_, ?_⟩ <;>
    simp [stack_dict, to_stacked_array, transposeTo, writeNodata]

/-- C3 counterexample: a 0.1-percentile estimate of -0.1004 is strictly below
-0.1, yet stack_dict does not fall back to float32 — np.round to 3 decimal
places brings the estimate back to -0.1 before the comparison, so integer
encoding proceeds and the returned dtype is uint16. -/
theorem C3_fallback_counterexample :
    (-1004 / 10000 : ℚ) < -(1 / 10)
    ∧ (stack_dict [BandId.RED] [(BandId.RED, [some (-1004 / 10000)])]
        true 65535 (-1004 / 10000)).2 = DType.uint16 := by
  constructor
  · norm_num
  · norm_num [stack_dict, roundHalfEven, ratFloor]

/-- C3 (amended): with save_as_int, integer encoding is abandoned for float32
exactly when the 0.1-percentile estimate, rounded half-to-even to 3 decimal
places, is strictly less than -0.1 — in particular an estimate of exactly
-0.1 proceeds; whenever encoding proceeds, the dtype is uint16 and the stack
holds the dataset with negative values clipped to 0 (when the estimate is
negative) and missing values filled with the nodata sentinel. No error is
raised on either path. -/
theorem C3_fallback_threshold_rounded (bands : List BandId) (xds : Dataset)
    (nodata sm : ℚ) :
    ((stack_dict bands xds true nodata sm).2 = DType.float32 ↔
      (roundHalfEven (sm * 1000) : ℚ) / 1000 < -(1 / 10))
    ∧ (¬((roundHalfEven (sm * 1000) : ℚ) / 1000 < -(1 / 10)) →
        (stack_dict bands xds true nodata sm).2 = DType.uint16
        ∧ (stack_dict bands xds true nodata sm).1.entries =
          fillnaDataset nodata (if sm < 0 then clipDataset xds else xds)) := by
  by_cases h : (roundHalfEven (sm * 1000) : ℚ) / 1000 < -(1 / 10)
  · rw [stack_dict_float_fallback bands xds nodata sm h]
    exact ⟨⟨fun _ => h, fun _ => rfl⟩, fun hn => absurd h hn⟩
  · rw [stack_dict_int_path bands xds nodata sm h]
    exact ⟨⟨fun hcontra => absurd hcontra (by simp), fun hc => absurd hc h⟩,
      fun _ => ⟨rfl, rfl⟩⟩

/-- C3 witness: at the boundary estimate -0.1 itself, encoding proceeds — the
dtype is uint16 and the single slightly negative value is clipped to 0. -/
theorem C3_fallback_threshold_rounded_witness :
    ¬((roundHalfEven ((-(1 / 10) : ℚ) * 1000) : ℚ) / 1000 < -(1 / 10))
    ∧ ((stack_dict [BandId.RED] [(BandId.RED, [some (-(1 / 20))])]
          true 65535 (-(1 / 10))).2 = DType.uint16
        ∧ (stack_dict [BandId.RED] [(BandId.RED, [some (-(1 / 20))])]
            true 65535 (-(1 / 10))).1.entries =
          fillnaDataset 65535
            (if (-(1 / 10) : ℚ) < 0 then
              clipDataset [(BandId.RED, [some (-(1 / 20))])]
            else [(BandId.RED, [some (-(1 / 20))])])) :=
  ⟨by norm_num [roundHalfEven, ratFloor],
   (C3_fallback_threshold_rounded [BandId.RED]
      [(BandId.RED, [some (-(1 / 20))])] 65535 (-(1 / 10))).2
     (by norm_num [roundHalfEven, ratFloor])⟩

/-- C4: when the raster engine read fails, a non-str path ending in jp2, or
ending in tif and existing, is reported as InvalidProductError whose message
names the offending path; every other engine failure is re-raised unchanged
(the original exception, not a wrapper). -/
theorem C4_read_error_dichotomy (p : PathArg) (ex : Nat) :
    ((!p.isStr && (pyEndsWith p.strRepr "jp2"
        || (pyEndsWith p.strRepr "tif" && p.fileExists))) = true →
      readErrorBranch p ex =
        ReadFailure.invalidProduct ("Corrupted file: " ++ p.strRepr))
    ∧ ((!p.isStr && (pyEndsWith p.strRepr "jp2"
        || (pyEndsWith p.strRepr "tif" && p.fileExists))) = false →
      readErrorBranch p ex = ReadFailure.rasterioIOError ex) := by
  constructor <;> intro h <;> simp [readErrorBranch, h]

/-- C4 witness: an existing non-str tif path is reported as corruption naming
the path; the same failing read through a plain str path re-raises the
original exception (tagged 7) unchanged. -/
theorem C4_read_error_dichotomy_witness :
    readErrorBranch ⟨false, "band.tif", true⟩ 7 =
      ReadFailure.invalidProduct ("Corrupted file: " ++ "band.tif")
    ∧ readErrorBranch ⟨true, "band.tif", true⟩ 7 =
      ReadFailure.rasterioIOError 7 :=
  ⟨(C4_read_error_dichotomy ⟨false, "band.tif", true⟩ 7).1 (by decide),
   (C4_read_error_dichotomy ⟨true, "band.tif", true⟩ 7).2 (by decide)⟩

/-- C5: after a successful read, the band coordinates are overwritten with the
dense sequence 1..N (N the number of bands read) and the data is untouched,
so no upstream sub-band index survives. -/
theorem C5_read_renumbers_band_axis (arr : RasterArr) :
    (readAssignBandCoords arr).bandCoords =
      (List.range arr.bandCoords.length).map (fun i : ℕ => (i : ℤ) + 1)
    ∧ (readAssignBandCoords arr).data = arr.data
    ∧ (readAssignBandCoords arr).bandCoords.length = arr.bandCoords.length := by
  have hc : (readAssignBandCoords arr).bandCoords =
      (List.range arr.bandCoords.length).map (fun i : ℕ => (i : ℤ) + 1) := by
    simp only [readAssignBandCoords, npArange]
    have h : (((arr.bandCoords.length : ℤ) + 1) - 1).toNat =
        arr.bandCoords.length := by omega
    rw [h]
    exact List.map_congr_left fun a _ => add_comm 1 (a : ℤ)
  exact ⟨hc, rfl, by rw [hc]; simp⟩

/-- C6: get_product_type on a Landsat-3 product whose name contains the
recognized sub-pattern L1 sets the product type to L1_MSS and registers the
MSS band mapping table; on any other name it raises InvalidProductError
naming the offending product name, leaving the product unusable (no product
type is ever set). -/
theorem C6_get_product_type_classification (p : L3Product) :
    (pyContains p.name "L1" = true →
      get_product_type p =
        Except.ok
          { p with
            product_type := some LandsatProductType.L1_MSS
            band_names := l3MSSBandNames })
    ∧ (pyContains p.name "L1" = false →
      get_product_type p =
        Except.error
          (ProductError.invalidProduct
            ("Invalid Landsat-3 name: " ++ p.name))) := by
  constructor <;> intro h <;> simp [get_product_type, h]

/-- C6 witness: a name containing L1 is classified as L1_MSS with the mapping
table registered; a name without any recognized sub-pattern raises
InvalidProductError naming it. -/
theorem C6_get_product_type_witness :
    get_product_type ⟨"LM03_L1TP_200030", "dt", "tile", none, []⟩ =
      Except.ok
        ⟨"LM03_L1TP_200030", "dt", "tile", some LandsatProductType.L1_MSS,
          l3MSSBandNames⟩
    ∧ get_product_type ⟨"LM03_L2SP_200030", "dt", "tile", none, []⟩ =
      Except.error
        (ProductError.invalidProduct
          ("Invalid Landsat-3 name: " ++ "LM03_L2SP_200030")) :=
  ⟨(C6_get_product_type_classification
      ⟨"LM03_L1TP_200030", "dt", "tile", none, []⟩).1 (by decide),
   (C6_get_product_type_classification
      ⟨"LM03_L2SP_200030", "dt", "tile", none, []⟩).2 (by decide)⟩

/-- C7: condensed_name is a deterministic pure function of the acquisition
datetime, the tile id and the product type (the sensor tag L3 is a constant
of the class): two products agreeing on those attributes get the exact same
condensed name, whatever their raw names or mapping tables. -/
theorem C7_condensed_name_deterministic (p q : L3Product)
    (hd : p.datetimeRepr = q.datetimeRepr) (ht : p.tile_name = q.tile_name)
    (hp : p.product_type = q.product_type) :
    condensed_name p = condensed_name q := by
  simp [condensed_name, hd, ht, hp]

/-- C7 witness: two products with different raw names and mapping tables but
the same datetime, tile and product type share the condensed name. -/
theorem C7_condensed_name_deterministic_witness :
    condensed_name
      ⟨"LM03_A", "20230101T103000", "200030",
        some LandsatProductType.L1_MSS, l3MSSBandNames⟩ =
    condensed_name
      ⟨"LM03_B", "20230101T103000", "200030",
        some LandsatProductType.L1_MSS, []⟩ :=
  C7_condensed_name_deterministic _ _ rfl rfl rfl

/-- C8: set_dem with an explicit non-empty path raises FileNotFoundError
naming the path when it is not an existing file, and registers it under
DEM_PATH otherwise; without an explicit path and with the remote-only flag
set, a missing S3 root key raises immediately (before any filesystem access),
and a configured root yields the remote DEM reference root/GLOBAL/... under
DEM_PATH. -/
theorem C8_set_dem_policy (isFile : String → Bool) (dbDir : Except Unit String)
    (env : Env) :
    (∀ p, ¬p = "" → isFile p = false →
      set_dem (some p) isFile dbDir env =
        Except.error (SetDemError.fileNotFound ("Not existing DEM: " ++ p)))
    ∧ (∀ p, ¬p = "" → isFile p = true →
      set_dem (some p) isFile dbDir env = Except.ok (envSet env DEM_PATH p))
    ∧ (∀ dp, truthyStr dp = false →
      ["Y", "YES", "TRUE", "T", "1"].contains
          ((envGet env TEST_USING_S3_DB).getD "") = true →
      envGet env S3_DB_URL_ROOT = none →
      set_dem dp isFile dbDir env =
        Except.error
          (SetDemError.exceptionRaised
            ("You must specify the S3 db root using env variable "
              ++ S3_DB_URL_ROOT ++ " if you activate S3_DB")))
    ∧ (∀ dp root, truthyStr dp = false →
      ["Y", "YES", "TRUE", "T", "1"].contains
          ((envGet env TEST_USING_S3_DB).getD "") = true →
      envGet env S3_DB_URL_ROOT = some root →
      set_dem dp isFile dbDir env =
        Except.ok
          (envSet env DEM_PATH
            (String.intercalate "/" (root :: MERIT_DEM_SUB_DIR_PATH)))) := by
  refine ⟨?_, ?_, ?_, ?_⟩
  · intro p hp hf
    simp [set_dem, truthyStr, hp, hf]
  · intro p hp hf
    simp [set_dem, truthyStr, hp, hf]
  · intro dp hdp hflag hroot
    simp only [set_dem, hdp, hflag, hroot]
    simp
  · intro dp root hdp hflag hroot
    simp only [set_dem, hdp, hflag, hroot]
    simp

/-- C8 witness: a missing explicit DEM file raises naming the path; an
existing one is registered; with the flag set, a missing S3 root raises and a
configured root builds the remote reference. -/
theorem C8_set_dem_policy_witness :
    set_dem (some "/dem/missing.tif") (fun _ => false) (Except.error ()) [] =
      Except.error
        (SetDemError.fileNotFound ("Not existing DEM: " ++ "/dem/missing.tif"))
    ∧ set_dem (some "/dem/merit.vrt") (fun _ => true) (Except.error ()) [] =
      Except.ok (envSet [] DEM_PATH "/dem/merit.vrt")
    ∧ set_dem none (fun _ => false) (Except.error ())
        [(TEST_USING_S3_DB, "Y")] =
      Except.error
        (SetDemError.exceptionRaised
          ("You must specify the S3 db root using env variable "
            ++ S3_DB_URL_ROOT ++ " if you activate S3_DB"))
    ∧ set_dem none (fun _ => false) (Except.error ())
        [(TEST_USING_S3_DB, "1"), (S3_DB_URL_ROOT, "s3://db")] =
      Except.ok
        (envSet [(TEST_USING_S3_DB, "1"), (S3_DB_URL_ROOT, "s3://db")]
          DEM_PATH
          (String.intercalate "/" ("s3://db" :: MERIT_DEM_SUB_DIR_PATH))) :=
  ⟨(C8_set_dem_policy (fun _ => false) (Except.error ()) []).1
      "/dem/missing.tif" (by decide) rfl,
   (C8_set_dem_policy (fun _ => true) (Except.error ()) []).2.1
      "/dem/merit.vrt" (by decide) rfl,
   (C8_set_dem_policy (fun _ => false) (Except.error ())
      [(TEST_USING_S3_DB, "Y")]).2.2.1 none rfl (by decide) (by decide),
   (C8_set_dem_policy (fun _ => false) (Except.error ())
      [(TEST_USING_S3_DB, "1"), (S3_DB_URL_ROOT, "s3://db")]).2.2.2 none
      "s3://db" rfl (by decide) (by decide)⟩

/-- C9: the default per-acquisition resolution of the CI driver: SAR products are
forced to the fixed coarse resolution 1000, optical products get their native
resolution multiplied by 50. -/
theorem C9_default_resolution_policy (resolution : ℚ) (env : Env) :
    (manageResolution SensorType.SAR resolution env).1 = 1000
    ∧ (manageResolution SensorType.OPTICAL resolution env).1 =
      resolution * 50 := by
  constructor <;> simp [manageResolution]

/-- C10: write hands back the array with its attributes exactly as before the
call — a truthy long_name of a multi-band array, temporarily replaced by its
space-split list for the engine write, is restored, and an array without a
truthy long_name or with a single band is never touched at all (the written
snapshot equals the input). -/
theorem C10_write_preserves_long_name (xds : XDA) :
    (write xds).1 = xds
    ∧ ((truthyAttr xds.long_name = false ∨ xds.rioCount ≤ 1) →
        (write xds).2 = xds)
    ∧ (∀ s, xds.long_name = some (AttrVal.str s) → ¬s = "" →
        1 < xds.rioCount →
        ((write xds).2).long_name =
          some (AttrVal.strList (pySplit s ' '))) := by
  obtain ⟨ln, c, oa⟩ := xds
  refine ⟨?_, ?_, ?_⟩
  · cases hb : truthyAttr ln && decide (1 < c) with
    | false => simp [write, hb]
    | true =>
      cases ln with
      | none => simp [truthyAttr] at hb
      | some v =>
        cases v with
        | str s => simp [write, hb]
        | strList l => simp [write, hb]
  · intro h
    have hb : (truthyAttr ln && decide (1 < c)) = false := by
      rcases h with h | h
      · have hf : truthyAttr ln = false := h
        simp [hf]
      · have hcc : c ≤ 1 := h
        have hc : ¬1 < c := by omega
        simp [hc]
    simp [write, hb]
  · intro s hs hne h2
    have hs2 : ln = some (AttrVal.str s) := hs
    subst hs2
    have hb : (truthyAttr (some (AttrVal.str s)) && decide (1 < c)) = true := by
      simp [truthyAttr, hne]
      exact h2
    simp [write, hb]

/-- C10 witness: a two-band array with long_name B1 B2 comes back unchanged
while the engine saw the split list; a single-band array is never touched. -/
theorem C10_write_preserves_long_name_witness :
    (write ⟨some (AttrVal.str "B1 B2"), 2, []⟩).1 =
      ⟨some (AttrVal.str "B1 B2"), 2, []⟩
    ∧ (write ⟨some (AttrVal.str "B1 B2"), 2, []⟩).2.long_name =
      some (AttrVal.strList ["B1", "B2"])
    ∧ (write ⟨some (AttrVal.str "B1"), 1, []⟩).2 =
      ⟨some (AttrVal.str "B1"), 1, []⟩ := by
  refine ⟨(C10_write_preserves_long_name _).1, ?_,
    (C10_write_preserves_long_name _).2.1 (Or.inr (by decide))⟩
  rw [(C10_write_preserves_long_name
        ⟨some (AttrVal.str "B1 B2"), 2, []⟩).2.2 "B1 B2" rfl (by decide)
      (by decide)]
  decide

end EOReader
